import Mathlib

/-!
Shallow embedding of the real-time synchronization layer of the
SolSniperPro trading dashboard.

The embedded code:
  * the zustand domain caches
      `src/frontend/src/stores/tradeStore.ts`   (trades, positions)
      `src/frontend/src/stores/tokenStore.ts`   (tokens)
      `src/unnamed/part_018` (= strategyStore)  (strategies)
  * the client sync agent `src/frontend/src/hooks/useWebSocket.ts`
    (connect/onclose/disconnect lifecycle, subscribe/unsubscribe,
    onmessage parsing and the `handleEvent` dispatcher)
  * the gateway message handler of `src/mock-api-server.js`
  * the optimistic toggle mutation of
    `src/frontend/src/hooks/useStrategies.ts` (`useToggleStrategy`).

TypeScript objects are embedded as Lean structures over the fields the
synchronization layer reads or writes; a TS shallow spread
`\x7b ...entity, ...updates \x7d` becomes a field-wise `Option.getD` merge,
where a `none` patch field is an absent property.  Store fields the
modelled operations never touch (filters, isLoading, error) are omitted
from the state records.
-/

namespace SolSniper

/-- The fixed topic enumeration of the wire protocol. -/
inductive Topic where
  | tokens
  | trades
  | positions
  | strategies
  | risk
  | metrics
  | system
deriving DecidableEq, Repr

/-! ## Domain entities and patches

Entities carry the fields the cache/dispatch code reads; every patch
field is an `Option`, `none` meaning the property is absent from the
update object. -/

/-- A trade entity, keyed by `id` (fields used by the stores and the
dispatcher: `id`, `side`, `token_symbol`, `status`, `error_message`,
`pnl_usd`). -/
structure Trade where
  id : String
  side : String
  tokenSymbol : String
  status : String
  errorMessage : Option String
  pnlUsd : Option Int
deriving DecidableEq, Repr

/-- An update object for a trade: any subset of `Trade`'s properties. -/
structure TradePatch where
  id : Option String
  side : Option String
  tokenSymbol : Option String
  status : Option String
  errorMessage : Option (Option String)
  pnlUsd : Option (Option Int)
deriving DecidableEq, Repr

/-- Shallow merge `\x7b ...trade, ...updates \x7d` from
`tradeStore.ts` `updateTrade`. -/
def mergeTrade (t : Trade) (u : TradePatch) : Trade :=
  { id := u.id.getD t.id
    side := u.side.getD t.side
    tokenSymbol := u.tokenSymbol.getD t.tokenSymbol
    status := u.status.getD t.status
    errorMessage := u.errorMessage.getD t.errorMessage
    pnlUsd := u.pnlUsd.getD t.pnlUsd }

/-- A position entity, keyed by `id`. -/
structure Position where
  id : String
  tokenSymbol : String
  pnlUsd : Int
  amountSol : Int
deriving DecidableEq, Repr

/-- An update object for a position. -/
structure PositionPatch where
  id : Option String
  tokenSymbol : Option String
  pnlUsd : Option Int
  amountSol : Option Int
deriving DecidableEq, Repr

/-- Shallow merge `\x7b ...position, ...updates \x7d` from
`tradeStore.ts` `updatePosition`. -/
def mergePosition (p : Position) (u : PositionPatch) : Position :=
  { id := u.id.getD p.id
    tokenSymbol := u.tokenSymbol.getD p.tokenSymbol
    pnlUsd := u.pnlUsd.getD p.pnlUsd
    amountSol := u.amountSol.getD p.amountSol }

/-- A token entity, keyed by `mint`. -/
structure TokenInfo where
  mint : String
  symbol : String
  name : String
  priceUsd : Int
  liquiditySol : Int
  isRenounced : Bool
deriving DecidableEq, Repr

/-- An update object for a token. -/
structure TokenPatch where
  mint : Option String
  symbol : Option String
  name : Option String
  priceUsd : Option Int
  liquiditySol : Option Int
  isRenounced : Option Bool
deriving DecidableEq, Repr

/-- Shallow merge `\x7b ...token, ...updates \x7d` from
`tokenStore.ts` `updateToken`. -/
def mergeToken (t : TokenInfo) (u : TokenPatch) : TokenInfo :=
  { mint := u.mint.getD t.mint
    symbol := u.symbol.getD t.symbol
    name := u.name.getD t.name
    priceUsd := u.priceUsd.getD t.priceUsd
    liquiditySol := u.liquiditySol.getD t.liquiditySol
    isRenounced := u.isRenounced.getD t.isRenounced }

/-- A strategy entity, keyed by `id` (strategyStore). -/
structure Strategy where
  id : String
  name : String
  enabled : Bool
  priority : Int
deriving DecidableEq, Repr

/-- An update object for a strategy. -/
structure StrategyPatch where
  id : Option String
  name : Option String
  enabled : Option Bool
  priority : Option Int
deriving DecidableEq, Repr

/-- Shallow merge `\x7b ...strategy, ...updates \x7d` from the
strategyStore `updateStrategy`. -/
def mergeStrategy (s : Strategy) (u : StrategyPatch) : Strategy :=
  { id := u.id.getD s.id
    name := u.name.getD s.name
    enabled := u.enabled.getD s.enabled
    priority := u.priority.getD s.priority }

/-! ## tradeStore.ts -/

/-- State of `useTradeStore` (fields touched by the modelled
operations). -/
structure TradeState where
  trades : List Trade
  positions : List Position
  selectedTrade : Option Trade
  selectedPosition : Option Position
deriving DecidableEq, Repr

/-- Initial `useTradeStore` state. -/
def initialTradeState : TradeState :=
  { trades := [], positions := [], selectedTrade := none,
    selectedPosition := none }

/-- `addTrade`: prepend the new trade (most-recent-first). -/
def addTrade (t : Trade) (s : TradeState) : TradeState :=
  { s with trades := t :: s.trades }

/-- The arrow function `updateTrade` maps over the trades list:
`trade.id === id ? \x7b ...trade, ...updates \x7d : trade`. -/
def stepTrade (id : String) (u : TradePatch) (t : Trade) : Trade :=
  if t.id = id then mergeTrade t u else t

/-- `updateTrade(id, updates)`: shallow-merge into every trade whose
`id` matches, and into `selectedTrade` when its `id` matches. -/
def updateTrade (id : String) (u : TradePatch) (s : TradeState) :
    TradeState :=
  { s with
    trades := s.trades.map (stepTrade id u)
    selectedTrade :=
      match s.selectedTrade with
      | some t => if t.id = id then some (mergeTrade t u) else some t
      | none => none }

/-- `removeTrade(id)`: filter out trades with that `id`; clear
`selectedTrade` when its `id` matches. -/
def removeTrade (id : String) (s : TradeState) : TradeState :=
  { s with
    trades := s.trades.filter fun t => t.id ≠ id
    selectedTrade :=
      match s.selectedTrade with
      | some t => if t.id = id then none else some t
      | none => none }

/-- `addPosition`: prepend the new position. -/
def addPosition (p : Position) (s : TradeState) : TradeState :=
  { s with positions := p :: s.positions }

/-- The arrow function `updatePosition` maps over the positions list. -/
def stepPosition (id : String) (u : PositionPatch) (p : Position) :
    Position :=
  if p.id = id then mergePosition p u else p

/-- `updatePosition(id, updates)`: shallow-merge into every position
whose `id` matches, and into `selectedPosition` when its `id`
matches. -/
def updatePosition (id : String) (u : PositionPatch) (s : TradeState) :
    TradeState :=
  { s with
    positions := s.positions.map (stepPosition id u)
    selectedPosition :=
      match s.selectedPosition with
      | some p => if p.id = id then some (mergePosition p u) else some p
      | none => none }

/-- `removePosition(id)`: filter out positions with that `id`; clear
`selectedPosition` when its `id` matches. -/
def removePosition (id : String) (s : TradeState) : TradeState :=
  { s with
    positions := s.positions.filter fun p => p.id ≠ id
    selectedPosition :=
      match s.selectedPosition with
      | some p => if p.id = id then none else some p
      | none => none }

/-! ## tokenStore.ts -/

/-- State of `useTokenStore` (fields touched by the modelled
operations). -/
structure TokenState where
  tokens : List TokenInfo
  selectedToken : Option TokenInfo
deriving DecidableEq, Repr

/-- Initial `useTokenStore` state. -/
def initialTokenState : TokenState :=
  { tokens := [], selectedToken := none }

/-- `addToken`: prepend the new token. -/
def addToken (t : TokenInfo) (s : TokenState) : TokenState :=
  { s with tokens := t :: s.tokens }

/-- The arrow function `updateToken` maps over the tokens list. -/
def stepToken (mint : String) (u : TokenPatch) (t : TokenInfo) :
    TokenInfo :=
  if t.mint = mint then mergeToken t u else t

/-- `updateToken(mint, updates)`: shallow-merge into every token whose
`mint` matches, and into `selectedToken` when its `mint` matches. -/
def updateToken (mint : String) (u : TokenPatch) (s : TokenState) :
    TokenState :=
  { s with
    tokens := s.tokens.map (stepToken mint u)
    selectedToken :=
      match s.selectedToken with
      | some t => if t.mint = mint then some (mergeToken t u) else some t
      | none => none }

/-- `removeToken(mint)`: filter out tokens with that `mint`; clear
`selectedToken` when its `mint` matches. -/
def removeToken (mint : String) (s : TokenState) : TokenState :=
  { s with
    tokens := s.tokens.filter fun t => t.mint ≠ mint
    selectedToken :=
      match s.selectedToken with
      | some t => if t.mint = mint then none else some t
      | none => none }

/-! ## strategyStore (src/unnamed/part_018) -/

/-- State of `useStrategyStore` (fields touched by the modelled
operations). -/
structure StrategyState where
  strategies : List Strategy
  selectedStrategy : Option Strategy
deriving DecidableEq, Repr

/-- Initial `useStrategyStore` state. -/
def initialStrategyState : StrategyState :=
  { strategies := [], selectedStrategy := none }

/-- Stable insertion of a strategy into a priority-descending list,
modelling the stable `Array.prototype.sort` with comparator
`(a, b) => b.priority - a.priority`. -/
def insertByPriority (s : Strategy) : List Strategy → List Strategy
  | [] => [s]
  | t :: ts =>
      if t.priority ≥ s.priority then t :: insertByPriority s ts
      else s :: t :: ts

/-- Stable sort by descending `priority`, as applied by the
strategyStore after `updateStrategy`. -/
def sortByPriorityDesc (l : List Strategy) : List Strategy :=
  l.foldr insertByPriority []

/-- `updateStrategy(id, updates)`: shallow-merge into every strategy
whose `id` matches, re-sort by descending priority, and merge into
`selectedStrategy` when its `id` matches. -/
def updateStrategy (id : String) (u : StrategyPatch)
    (s : StrategyState) : StrategyState :=
  { s with
    strategies := sortByPriorityDesc (s.strategies.map fun st =>
      if st.id = id then mergeStrategy st u else st)
    selectedStrategy :=
      match s.selectedStrategy with
      | some st =>
          if st.id = id then some (mergeStrategy st u) else some st
      | none => none }

/-- The arrow function `toggleStrategy` maps over the strategies list:
`strategy.id === id ? \x7b ...strategy, enabled: !strategy.enabled \x7d :
strategy`. -/
def stepToggle (id : String) (st : Strategy) : Strategy :=
  if st.id = id then { st with enabled := !st.enabled } else st

/-- `toggleStrategy(id)`: negate `enabled` on every strategy whose `id`
matches; `selectedStrategy` is not touched. -/
def toggleStrategy (id : String) (s : StrategyState) : StrategyState :=
  { s with strategies := s.strategies.map (stepToggle id) }

/-! ## Wire events and the client dispatcher (useWebSocket.ts)

`handleEvent` switches on the `event` string of a parsed message and
reads fields out of its untyped `data` payload.  Following the shapes
the handlers actually read, the string-keyed dispatch is embedded as a
closed tagged union: each constructor is one `case` label of the
switch, carrying its payload in the shape that case dereferences. -/

/-- Payload of a `trade_failed` event: `data.id` is read as the key and
the object itself is the update; the toast reads
`data.error_message`. -/
structure TradeEventData where
  id : String
  side : Option String
  tokenSymbol : Option String
  status : Option String
  errorMessage : Option (Option String)
  pnlUsd : Option (Option Int)
deriving DecidableEq, Repr

/-- The update object `updateTrade(data.id, data)` passes: the whole
payload, whose `id` property is present. -/
def TradeEventData.toPatch (d : TradeEventData) : TradePatch :=
  { id := some d.id, side := d.side, tokenSymbol := d.tokenSymbol,
    status := d.status, errorMessage := d.errorMessage,
    pnlUsd := d.pnlUsd }

/-- Payload of a `token_update` event: `data.mint` is read as the key
and the object itself is the update. -/
structure TokenEventData where
  mint : String
  symbol : Option String
  name : Option String
  priceUsd : Option Int
  liquiditySol : Option Int
  isRenounced : Option Bool
deriving DecidableEq, Repr

/-- The update object `updateToken(data.mint, data)` passes. -/
def TokenEventData.toPatch (d : TokenEventData) : TokenPatch :=
  { mint := some d.mint, symbol := d.symbol, name := d.name,
    priceUsd := d.priceUsd, liquiditySol := d.liquiditySol,
    isRenounced := d.isRenounced }

/-- Payload of a `position_updated` event: `data.id` is the key, the
object itself the update. -/
structure PositionEventData where
  id : String
  tokenSymbol : Option String
  pnlUsd : Option Int
  amountSol : Option Int
deriving DecidableEq, Repr

/-- The update object `updatePosition(data.id, data)` passes. -/
def PositionEventData.toPatch (d : PositionEventData) : PositionPatch :=
  { id := some d.id, tokenSymbol := d.tokenSymbol, pnlUsd := d.pnlUsd,
    amountSol := d.amountSol }

/-- Payload of a `position_closed` event: the handler reads `data.id`,
`data.token_symbol` and `data.pnl_usd`. -/
structure PositionClosedData where
  id : String
  tokenSymbol : String
  pnlUsd : Int
deriving DecidableEq, Repr

/-- Payload of a `strategy_updated` event. -/
structure StrategyEventData where
  id : String
  name : Option String
  enabled : Option Bool
  priority : Option Int
deriving DecidableEq, Repr

/-- The update object `updateStrategy(data.id, data)` passes. -/
def StrategyEventData.toPatch (d : StrategyEventData) : StrategyPatch :=
  { id := some d.id, name := d.name, enabled := d.enabled,
    priority := d.priority }

/-- The event kinds of the `handleEvent` switch in `useWebSocket.ts`,
one constructor per `case` label plus the `default` case. -/
inductive WsEvent where
  | newToken (d : TokenInfo)
  | tokenUpdate (d : TokenEventData)
  | tradeCreated (d : Trade)
  | tradeExecuted (d : Trade)
  | tradeFailed (d : TradeEventData)
  | positionOpened (d : Position)
  | positionUpdated (d : PositionEventData)
  | positionClosed (d : PositionClosedData)
  | strategyTriggered (strategyName tokenSymbol : String)
  | strategyUpdated (d : StrategyEventData)
  | riskAlert (severity message : String)
  | riskViolation (message : String)
  | unhandledEvent (ev : String)
deriving DecidableEq, Repr

/-- A user-facing toast notification (react-hot-toast). -/
inductive Notif where
  | success (msg : String)
  | failure (msg : String)
  | info (msg : String)
deriving DecidableEq, Repr

/-- The client-side state touched by `onmessage` handling: the three
domain cache stores, the toast notification stream, `lastMessage`,
`console.error`/`console.log` output, and whether the client's
transport is open (the message handlers never close it). -/
structure ClientState where
  tokenSt : TokenState
  tradeSt : TradeState
  strategySt : StrategyState
  notifs : List Notif
  lastMessage : Option WsEvent
  errorLogs : List String
  infoLogs : List String
  connOpen : Bool
deriving DecidableEq, Repr

/-- Client state right after a connection was established. -/
def initialClientState : ClientState :=
  { tokenSt := initialTokenState, tradeSt := initialTradeState,
    strategySt := initialStrategyState, notifs := [],
    lastMessage := none, errorLogs := [], infoLogs := [],
    connOpen := true }

/-- The `handleEvent` switch of `useWebSocket.ts`: one cache mutation
and optional toast per event kind; unhandled kinds are only logged. -/
def handleEvent (e : WsEvent) (c : ClientState) : ClientState :=
  match e with
  | .newToken d =>
      { c with tokenSt := addToken d c.tokenSt
               notifs := c.notifs ++
                 [.success ("New token detected: " ++ d.symbol)] }
  | .tokenUpdate d =>
      { c with tokenSt := updateToken d.mint d.toPatch c.tokenSt }
  | .tradeCreated d =>
      { c with tradeSt := addTrade d c.tradeSt }
  | .tradeExecuted d =>
      { c with tradeSt := addTrade d c.tradeSt
               notifs := c.notifs ++
                 [.success ("Trade executed: " ++ d.side ++ " " ++
                   d.tokenSymbol)] }
  | .tradeFailed d =>
      { c with tradeSt := updateTrade d.id d.toPatch c.tradeSt
               notifs := c.notifs ++
                 [.failure ("Trade failed: " ++
                   ((d.errorMessage.getD none).getD "undefined"))] }
  | .positionOpened d =>
      { c with tradeSt := addPosition d c.tradeSt
               notifs := c.notifs ++
                 [.success ("Position opened: " ++ d.tokenSymbol)] }
  | .positionUpdated d =>
      { c with tradeSt := updatePosition d.id d.toPatch c.tradeSt }
  | .positionClosed d =>
      { c with tradeSt := removePosition d.id c.tradeSt
               notifs := c.notifs ++
                 [.success ("Position closed: " ++ d.tokenSymbol)] }
  | .strategyTriggered sn ts =>
      { c with notifs := c.notifs ++
          [.info ("Strategy triggered: " ++ sn ++ " for " ++ ts)] }
  | .strategyUpdated d =>
      { c with strategySt := updateStrategy d.id d.toPatch c.strategySt }
  | .riskAlert sev msg =>
      if sev = "CRITICAL" then
        { c with notifs := c.notifs ++ [.failure ("Risk Alert: " ++ msg)] }
      else if sev = "WARNING" then
        { c with notifs := c.notifs ++ [.info ("Risk Warning: " ++ msg)] }
      else c
  | .riskViolation msg =>
      { c with notifs := c.notifs ++
          [.failure ("Risk Violation: " ++ msg)] }
  | .unhandledEvent ev =>
      { c with infoLogs := c.infoLogs ++
          ["Unhandled WebSocket event: " ++ ev] }

/-- An inbound text frame as seen by a message handler before
`JSON.parse`: either it parses to a message or parsing throws. -/
inductive RawFrame where
  | malformed (raw : String)
  | wellFormed (e : WsEvent)
deriving DecidableEq, Repr

/-- The `onmessage` handler of `useWebSocket.ts`: parse inside
`try`/`catch`; on success record `lastMessage` and dispatch through
`handleEvent`; on failure log the parse error and do nothing else. -/
def clientOnMessage (f : RawFrame) (c : ClientState) : ClientState :=
  match f with
  | .malformed _ =>
      { c with errorLogs := c.errorLogs ++
          ["Failed to parse WebSocket message"] }
  | .wellFormed e =>
      handleEvent e { c with lastMessage := some e }

/-! ## Client sync agent lifecycle (useWebSocket.ts)

The refs of the hook are embedded as a state record; the asynchronous
`close` event of a socket that was told to close is tracked as a
pending event, delivered later to the `onclose` handler that stays
attached to that socket. -/

/-- The readyState of a browser WebSocket. -/
inductive ReadyState where
  | connecting
  | opened
  | closing
  | closed
deriving DecidableEq, Repr

/-- The transport object held in `ws.current`. -/
structure SocketModel where
  readyState : ReadyState
deriving DecidableEq, Repr

/-- Hook options relevant to the lifecycle: the auth token and the
auto-reconnect flag (defaults: token present after login,
`autoReconnect = true`, `reconnectInterval = 5000`). -/
structure AgentConfig where
  token : Option String
  autoReconnect : Bool
  reconnectInterval : Nat
deriving DecidableEq, Repr

/-- The mutable refs and state of `useWebSocket`: `ws.current`,
`isConnected`, whether `reconnectTimeout.current` holds a pending
timer, and how many `close` events of closed sockets are still
undelivered. -/
structure AgentState where
  ws : Option SocketModel
  isConnected : Bool
  reconnectScheduled : Bool
  pendingCloseEvents : Nat
deriving DecidableEq, Repr

/-- `disconnect()`: clear any pending reconnect timer, close the live
transport if present (its `close` event is delivered later to the
still-attached `onclose` handler), null out `ws.current`, and flip
`isConnected` off. -/
def disconnect (s : AgentState) : AgentState :=
  { ws := none
    isConnected := false
    reconnectScheduled := false
    pendingCloseEvents :=
      s.pendingCloseEvents + (if s.ws.isSome then 1 else 0) }

/-- The `onclose` handler installed by `connect()`: flip `isConnected`
off and, when `autoReconnect` is set and a token is present, store a
new reconnect timer in `reconnectTimeout.current`. -/
def oncloseHandler (cfg : AgentConfig) (s : AgentState) : AgentState :=
  { s with
    isConnected := false
    reconnectScheduled :=
      if cfg.autoReconnect && cfg.token.isSome then true
      else s.reconnectScheduled
    pendingCloseEvents := s.pendingCloseEvents - 1 }

/-- Outbound control frames the agent can send. -/
inductive OutMsg where
  | subscribeMsg (topics : List Topic)
  | unsubscribeMsg (topics : List Topic)
deriving DecidableEq, Repr

/-- `subscribe(newTopics)`: send only if `ws.current` exists and its
`readyState` is OPEN; otherwise do nothing (no queue exists). Returns
the unchanged-or-same state and the frames put on the wire. -/
def subscribeCall (topics : List Topic) (s : AgentState) :
    AgentState × List OutMsg :=
  match s.ws with
  | some w =>
      if w.readyState = ReadyState.opened then
        (s, [OutMsg.subscribeMsg topics])
      else (s, [])
  | none => (s, [])

/-- `unsubscribe(topicsToRemove)`: same guard as `subscribe`. -/
def unsubscribeCall (topics : List Topic) (s : AgentState) :
    AgentState × List OutMsg :=
  match s.ws with
  | some w =>
      if w.readyState = ReadyState.opened then
        (s, [OutMsg.unsubscribeMsg topics])
      else (s, [])
  | none => (s, [])

/-! ## Gateway inbound handling (mock-api-server.js)

The per-connection `message` handler: `JSON.parse` inside
`try`/`catch`; a parsed message is logged and echoed back wrapped in
an `echo` envelope; a parse failure is logged and produces no reply.
The connection object owns no subscription state and is never closed
by the handler. -/

/-- Messages a client sends over the wire, as the gateway could
classify them (it does not: all are treated alike). -/
inductive ClientMsg where
  | subscribeCtl (topics : List Topic)
  | unsubscribeCtl (topics : List Topic)
  | otherMsg (ty : String)
deriving DecidableEq, Repr

/-- An inbound frame at the gateway before `JSON.parse`. -/
inductive GwFrame where
  | malformed (raw : String)
  | parsed (m : ClientMsg)
deriving DecidableEq, Repr

/-- Frames the gateway sends to a client. -/
inductive GwReply where
  | connectionMsg
  | echo (m : ClientMsg)
  | priceUpdate
deriving DecidableEq, Repr

/-- Per-connection state at the mock gateway: console log output and
whether the socket is open.  There is no subscription set. -/
structure MockConn where
  isOpen : Bool
  logs : List String
deriving DecidableEq, Repr

/-- The `ws.on('message')` handler of `mock-api-server.js`. -/
def mockOnMessage (f : GwFrame) (c : MockConn) :
    MockConn × List GwReply :=
  match f with
  | .malformed _ =>
      ({ c with logs := c.logs ++ ["WebSocket message error"] }, [])
  | .parsed m =>
      ({ c with logs := c.logs ++ ["Received"] }, [GwReply.echo m])

/-! ## Optimistic toggle mutation (useStrategies.ts, useToggleStrategy)

`onMutate` applies `toggleStrategy(id)` speculatively; when the
authoritative request fails, `onError` applies `toggleStrategy(id)`
again to revert and emits exactly one `toast.error`. -/

/-- The speculative step of `useToggleStrategy` (`onMutate`). -/
def toggleOnMutate (id : String) (s : StrategyState) : StrategyState :=
  toggleStrategy id s

/-- The failure path of `useToggleStrategy`: `onError` reverts the
optimistic update with a second `toggleStrategy(id)` and emits one
failure toast. -/
def toggleOnError (id : String) (s : StrategyState)
    (notifs : List Notif) : StrategyState × List Notif :=
  (toggleStrategy id s,
   notifs ++ [Notif.failure "Failed to toggle strategy"])

/-- A full failed optimistic toggle: speculative flip, authoritative
request fails (e.g. 404), error handler reverts and notifies. -/
def failedToggleRun (id : String) (s : StrategyState)
    (notifs : List Notif) : StrategyState × List Notif :=
  toggleOnError id (toggleOnMutate id s) notifs

/-! ## Helper lemmas -/

theorem getD_getD {α : Type} (o : Option α) (x : α) :
    o.getD (o.getD x) = o.getD x := by
  cases o <;> rfl

theorem listMapIdem {α : Type} (f : α → α) (h : ∀ a, f (f a) = f a) :
    ∀ l : List α, (l.map f).map f = l.map f := by
  intro l
  induction l with
  | nil => rfl
  | cons a l ih => simp [h a, ih]

theorem listMapInvol {α : Type} (f : α → α) (h : ∀ a, f (f a) = a) :
    ∀ l : List α, (l.map f).map f = l := by
  intro l
  induction l with
  | nil => rfl
  | cons a l ih => simp [h a, ih]

theorem listMapFix {α : Type} (f : α → α) :
    ∀ l : List α, (∀ a ∈ l, f a = a) → l.map f = l := by
  intro l
  induction l with
  | nil => intro _; rfl
  | cons a l ih =>
      intro h
      simp only [List.map_cons, h a (List.mem_cons_self a l)]
      rw [ih fun b hb => h b (List.mem_cons_of_mem a hb)]

theorem listMapKeys {α : Type} (key : α → String) (f : α → α)
    (h : ∀ a, key (f a) = key a) :
    ∀ l : List α, (l.map f).map key = l.map key := by
  intro l
  induction l with
  | nil => rfl
  | cons a l ih => simp [h a, ih]

theorem mergeTrade_idem (t : Trade) (u : TradePatch) :
    mergeTrade (mergeTrade t u) u = mergeTrade t u := by
  simp [mergeTrade, getD_getD]

theorem mergePosition_idem (p : Position) (u : PositionPatch) :
    mergePosition (mergePosition p u) u = mergePosition p u := by
  simp [mergePosition, getD_getD]

theorem mergeToken_idem (t : TokenInfo) (u : TokenPatch) :
    mergeToken (mergeToken t u) u = mergeToken t u := by
  simp [mergeToken, getD_getD]

theorem stepTrade_idem (id : String) (u : TradePatch) (t : Trade) :
    stepTrade id u (stepTrade id u t) = stepTrade id u t := by
  by_cases h : t.id = id
  · simp only [stepTrade, h, if_pos rfl]
    by_cases h2 : (mergeTrade t u).id = id
    · simp [h2, mergeTrade_idem]
    · simp [h2]
  · simp [stepTrade, h]

theorem stepPosition_idem (id : String) (u : PositionPatch)
    (p : Position) :
    stepPosition id u (stepPosition id u p) = stepPosition id u p := by
  by_cases h : p.id = id
  · simp only [stepPosition, h, if_pos rfl]
    by_cases h2 : (mergePosition p u).id = id
    · simp [h2, mergePosition_idem]
    · simp [h2]
  · simp [stepPosition, h]

theorem stepToken_idem (mint : String) (u : TokenPatch)
    (t : TokenInfo) :
    stepToken mint u (stepToken mint u t) = stepToken mint u t := by
  by_cases h : t.mint = mint
  · simp only [stepToken, h, if_pos rfl]
    by_cases h2 : (mergeToken t u).mint = mint
    · simp [h2, mergeToken_idem]
    · simp [h2]
  · simp [stepToken, h]

/-! ## Claim theorems -/

/-- C6: for every cache (trades, positions, tokens) and every update
operation invoked with a key not present in the cache, the entry list
is unchanged: its size stays the same and no entry is created. -/
theorem c6_unknown_key_update_noop :
    (∀ (id : String) (u : TradePatch) (s : TradeState),
      id ∉ s.trades.map Trade.id →
      (updateTrade id u s).trades = s.trades) ∧
    (∀ (id : String) (u : PositionPatch) (s : TradeState),
      id ∉ s.positions.map Position.id →
      (updatePosition id u s).positions = s.positions) ∧
    (∀ (mint : String) (u : TokenPatch) (s : TokenState),
      mint ∉ s.tokens.map TokenInfo.mint →
      (updateToken mint u s).tokens = s.tokens) := by
  refine ⟨?_, ?_, ?_⟩
  · intro id u s h
    show s.trades.map (stepTrade id u) = s.trades
    refine listMapFix _ _ fun t ht => ?_
    have : t.id ≠ id := fun he => h (he ▸ List.mem_map_of_mem Trade.id ht)
    simp [stepTrade, this]
  · intro id u s h
    show s.positions.map (stepPosition id u) = s.positions
    refine listMapFix _ _ fun p hp => ?_
    have : p.id ≠ id := fun he => h (he ▸ List.mem_map_of_mem Position.id hp)
    simp [stepPosition, this]
  · intro mint u s h
    show s.tokens.map (stepToken mint u) = s.tokens
    refine listMapFix _ _ fun t ht => ?_
    have : t.mint ≠ mint :=
      fun he => h (he ▸ List.mem_map_of_mem TokenInfo.mint ht)
    simp [stepToken, this]

/-- C6 witness: updating an absent key in concrete stores changes no
entry list. -/
theorem c6_unknown_key_update_noop_witness :
    (updateTrade "tX"
      ⟨none, none, none, some "FAILED", none, none⟩
      initialTradeState).trades = initialTradeState.trades ∧
    (updatePosition "pX" ⟨none, none, some 3, none⟩
      initialTradeState).positions = initialTradeState.positions ∧
    (updateToken "mX" ⟨none, some "WIF", none, none, none, none⟩
      initialTokenState).tokens = initialTokenState.tokens :=
  ⟨c6_unknown_key_update_noop.1 "tX" _ initialTradeState (by decide),
   c6_unknown_key_update_noop.2.1 "pX" _ initialTradeState (by decide),
   c6_unknown_key_update_noop.2.2 "mX" _ initialTokenState (by decide)⟩

/-- C7: `upsert_update` is idempotent: applying the same shallow-merge
update twice (to the full store state, selections included) equals
applying it once, for the trade, position and token caches. -/
theorem c7_update_idempotent :
    (∀ (id : String) (u : TradePatch) (s : TradeState),
      updateTrade id u (updateTrade id u s) = updateTrade id u s) ∧
    (∀ (id : String) (u : PositionPatch) (s : TradeState),
      updatePosition id u (updatePosition id u s) =
        updatePosition id u s) ∧
    (∀ (mint : String) (u : TokenPatch) (s : TokenState),
      updateToken mint u (updateToken mint u s) =
        updateToken mint u s) := by
  refine ⟨?_, ?_, ?_⟩
  · intro id u s
    simp only [updateTrade, TradeState.mk.injEq]
    refine ⟨listMapIdem _ (stepTrade_idem id u) s.trades, trivial, ?_,
      trivial⟩
    cases hsel : s.selectedTrade with
    | none => rfl
    | some t =>
        by_cases ht : t.id = id
        · simp only [ht, if_pos rfl]
          by_cases h2 : (mergeTrade t u).id = id
          · simp [h2, mergeTrade_idem]
          · simp [h2]
        · simp [ht]
  · intro id u s
    simp only [updatePosition, TradeState.mk.injEq]
    refine ⟨trivial, listMapIdem _ (stepPosition_idem id u) s.positions,
      trivial, ?_⟩
    cases hsel : s.selectedPosition with
    | none => rfl
    | some p =>
        by_cases hp : p.id = id
        · simp only [hp, if_pos rfl]
          by_cases h2 : (mergePosition p u).id = id
          · simp [h2, mergePosition_idem]
          · simp [h2]
        · simp [hp]
  · intro mint u s
    simp only [updateToken, TokenState.mk.injEq]
    refine ⟨listMapIdem _ (stepToken_idem mint u) s.tokens, ?_⟩
    cases hsel : s.selectedToken with
    | none => rfl
    | some t =>
        by_cases ht : t.mint = mint
        · simp only [ht, if_pos rfl]
          by_cases h2 : (mergeToken t u).mint = mint
          · simp [h2, mergeToken_idem]
          · simp [h2]
        · simp [ht]

/-- C9: `subscribe`/`unsubscribe` called while the transport is absent
or not OPEN send nothing and leave the agent state untouched (there is
no queue), so the message is never transmitted later. -/
theorem c9_offline_control_noop (topics : List Topic) (s : AgentState)
    (h : ∀ w, s.ws = some w → w.readyState ≠ ReadyState.opened) :
    subscribeCall topics s = (s, []) ∧
    unsubscribeCall topics s = (s, []) := by
  cases hw : s.ws with
  | none => simp [subscribeCall, unsubscribeCall, hw]
  | some w =>
      have hne := h w hw
      simp [subscribeCall, unsubscribeCall, hw, hne]

/-- Agent state holding a socket whose readyState is CLOSED. -/
def agentClosedState : AgentState :=
  { ws := some { readyState := ReadyState.closed }
    isConnected := false
    reconnectScheduled := false
    pendingCloseEvents := 0 }

/-- C9 witness: on a CLOSED transport, subscribe and unsubscribe are
no-ops. -/
theorem c9_offline_control_noop_witness :
    subscribeCall [Topic.trades] agentClosedState =
      (agentClosedState, []) ∧
    unsubscribeCall [Topic.trades] agentClosedState =
      (agentClosedState, []) :=
  c9_offline_control_noop [Topic.trades] agentClosedState
    (fun w hw => by
      injection hw with h1
      rw [← h1]
      decide)

/-- C10: when an update key equals the selected entity's key, the
identical shallow merge is applied to the selection; when a remove key
equals the selected entity's key, the selection becomes `null` — for
trades, positions and tokens. -/
theorem c10_selection_consistency :
    (∀ (id : String) (u : TradePatch) (s : TradeState) (t : Trade),
      s.selectedTrade = some t → t.id = id →
      (updateTrade id u s).selectedTrade = some (mergeTrade t u)) ∧
    (∀ (id : String) (s : TradeState) (t : Trade),
      s.selectedTrade = some t → t.id = id →
      (removeTrade id s).selectedTrade = none) ∧
    (∀ (id : String) (u : PositionPatch) (s : TradeState)
      (p : Position),
      s.selectedPosition = some p → p.id = id →
      (updatePosition id u s).selectedPosition =
        some (mergePosition p u)) ∧
    (∀ (id : String) (s : TradeState) (p : Position),
      s.selectedPosition = some p → p.id = id →
      (removePosition id s).selectedPosition = none) ∧
    (∀ (mint : String) (u : TokenPatch) (s : TokenState)
      (t : TokenInfo),
      s.selectedToken = some t → t.mint = mint →
      (updateToken mint u s).selectedToken = some (mergeToken t u)) ∧
    (∀ (mint : String) (s : TokenState) (t : TokenInfo),
      s.selectedToken = some t → t.mint = mint →
      (removeToken mint s).selectedToken = none) := by
  refine ⟨?_, ?_, ?_, ?_, ?_, ?_⟩
  · intro id u s t hsel hid
    simp [updateTrade, hsel, hid]
  · intro id s t hsel hid
    simp [removeTrade, hsel, hid]
  · intro id u s p hsel hid
    simp [updatePosition, hsel, hid]
  · intro id s p hsel hid
    simp [removePosition, hsel, hid]
  · intro mint u s t hsel hm
    simp [updateToken, hsel, hm]
  · intro mint s t hsel hm
    simp [removeToken, hsel, hm]

/-- A selected trade used in concrete instantiations. -/
def tradeSel : Trade :=
  { id := "t9", side := "BUY", tokenSymbol := "BONK",
    status := "PENDING", errorMessage := none, pnlUsd := none }

/-- A selected position used in concrete instantiations. -/
def posSel : Position :=
  { id := "p9", tokenSymbol := "WIF", pnlUsd := 0, amountSol := 1 }

/-- A selected token used in concrete instantiations. -/
def tokSel : TokenInfo :=
  { mint := "m9", symbol := "BONK", name := "Bonk", priceUsd := 1,
    liquiditySol := 2, isRenounced := true }

/-- A trade store with selections present. -/
def selTradeState : TradeState :=
  { trades := [tradeSel], positions := [posSel],
    selectedTrade := some tradeSel, selectedPosition := some posSel }

/-- A token store with a selection present. -/
def selTokenState : TokenState :=
  { tokens := [tokSel], selectedToken := some tokSel }

/-- A trade patch used in concrete instantiations. -/
def tpatchW : TradePatch :=
  { id := none, side := none, tokenSymbol := none,
    status := some "COMPLETED", errorMessage := none, pnlUsd := none }

/-- A position patch used in concrete instantiations. -/
def ppatchW : PositionPatch :=
  { id := none, tokenSymbol := none, pnlUsd := some 7,
    amountSol := none }

/-- A token patch used in concrete instantiations. -/
def kpatchW : TokenPatch :=
  { mint := none, symbol := none, name := none, priceUsd := some 3,
    liquiditySol := none, isRenounced := none }

/-- C10 witness: concrete updates and removes keep the selections
consistent with the entry lists. -/
theorem c10_selection_consistency_witness :
    (updateTrade "t9" tpatchW selTradeState).selectedTrade =
      some (mergeTrade tradeSel tpatchW) ∧
    (removeTrade "t9" selTradeState).selectedTrade = none ∧
    (updatePosition "p9" ppatchW selTradeState).selectedPosition =
      some (mergePosition posSel ppatchW) ∧
    (removePosition "p9" selTradeState).selectedPosition = none ∧
    (updateToken "m9" kpatchW selTokenState).selectedToken =
      some (mergeToken tokSel kpatchW) ∧
    (removeToken "m9" selTokenState).selectedToken = none :=
  ⟨c10_selection_consistency.1 "t9" tpatchW selTradeState tradeSel
      rfl rfl,
   c10_selection_consistency.2.1 "t9" selTradeState tradeSel rfl rfl,
   c10_selection_consistency.2.2.1 "p9" ppatchW selTradeState posSel
      rfl rfl,
   c10_selection_consistency.2.2.2.1 "p9" selTradeState posSel rfl rfl,
   c10_selection_consistency.2.2.2.2.1 "m9" kpatchW selTokenState
      tokSel rfl rfl,
   c10_selection_consistency.2.2.2.2.2 "m9" selTokenState tokSel
      rfl rfl⟩

theorem stepToggle_invol (id : String) (st : Strategy) :
    stepToggle id (stepToggle id st) = st := by
  cases st with
  | mk sid sname sen sprio =>
      by_cases h : sid = id
      · simp [stepToggle, h]
      · simp [stepToggle, h]

/-- C4: a failed optimistic toggle restores the strategy store to its
prior state (in particular a flag flipped `false → true` speculatively
reads `false` again), emits exactly one failure notification, and the
speculative flip was visible in between. -/
theorem c4_optimistic_rollback (id : String) (s : StrategyState)
    (ns : List Notif) :
    (failedToggleRun id s ns).1 = s ∧
    (failedToggleRun id s ns).2 =
      ns ++ [Notif.failure "Failed to toggle strategy"] ∧
    (∀ st ∈ s.strategies, st.id = id → st.enabled = false →
      { st with enabled := true } ∈
        (toggleOnMutate id s).strategies) := by
  refine ⟨?_, rfl, ?_⟩
  · show toggleStrategy id (toggleStrategy id s) = s
    simp only [toggleStrategy]
    rw [listMapInvol _ (stepToggle_invol id) s.strategies]
  · intro st hmem hid hen
    have hst : stepToggle id st = { st with enabled := true } := by
      simp [stepToggle, hid, hen]
    exact hst ▸ List.mem_map_of_mem (stepToggle id) hmem

/-- Strategy 1 of the mock data set (inactive here). -/
def stratA : Strategy :=
  { id := "strategy1", name := "Early Bird", enabled := false,
    priority := 90 }

/-- Strategy 2 of the mock data set. -/
def stratB : Strategy :=
  { id := "strategy2", name := "Liquidity Hunter", enabled := true,
    priority := 80 }

/-- A concrete strategy store with two strategies. -/
def stratState : StrategyState :=
  { strategies := [stratA, stratB], selectedStrategy := none }

/-- C4 witness: a failed toggle of `strategy1` (enabled = false)
restores the concrete store, the speculative `true` having been
visible after `onMutate`. -/
theorem c4_optimistic_rollback_witness :
    (failedToggleRun "strategy1" stratState []).1 = stratState ∧
    { stratA with enabled := true } ∈
      (toggleOnMutate "strategy1" stratState).strategies :=
  ⟨(c4_optimistic_rollback "strategy1" stratState []).1,
   (c4_optimistic_rollback "strategy1" stratState []).2.2 stratA
     (by decide) rfl rfl⟩

/-- C5: `toggleStrategy(E1)` — the rollback of one in-flight optimistic
mutation — preserves the list length and the selection and leaves every
entry whose id differs from `E1` exactly unchanged. -/
theorem c5_rollback_isolation (id : String) (s : StrategyState) :
    (toggleStrategy id s).strategies.length = s.strategies.length ∧
    (toggleStrategy id s).selectedStrategy = s.selectedStrategy ∧
    ∀ (i : Nat) (h : i < s.strategies.length)
      (h2 : i < (toggleStrategy id s).strategies.length),
      (s.strategies.get ⟨i, h⟩).id ≠ id →
      (toggleStrategy id s).strategies.get ⟨i, h2⟩ =
        s.strategies.get ⟨i, h⟩ := by
  refine ⟨by simp [toggleStrategy], rfl, ?_⟩
  intro i h h2 hne
  simp only [List.get_eq_getElem] at hne ⊢
  show (s.strategies.map (stepToggle id))[i] = s.strategies[i]
  rw [List.getElem_map]
  simp [stepToggle, hne]

/-- Two strategies with both optimistic mutations in flight:
`strategy1` speculatively enabled, `strategy2` speculatively
disabled. -/
def inflightState : StrategyState :=
  { strategies :=
      [{ id := "strategy1", name := "Early Bird", enabled := true,
         priority := 90 },
       { id := "strategy2", name := "Liquidity Hunter",
         enabled := false, priority := 80 }]
    selectedStrategy := none }

/-- C5 witness: rolling back `strategy1` leaves `strategy2`'s
speculative entry untouched. -/
theorem c5_rollback_isolation_witness :
    (toggleStrategy "strategy1" inflightState).strategies.get
      ⟨1, by decide⟩ = inflightState.strategies.get ⟨1, by decide⟩ :=
  (c5_rollback_isolation "strategy1" inflightState).2.2 1 (by decide)
    (by decide) (by decide)

/-- C8: a malformed inbound frame is logged and dropped on both sides:
the gateway sends no reply and keeps the connection open; the client
mutates no cache, emits no notification, and keeps its connection
open. -/
theorem c8_protocol_error_containment (raw : String) (c : MockConn)
    (st : ClientState) :
    (mockOnMessage (GwFrame.malformed raw) c).1.isOpen = c.isOpen ∧
    (mockOnMessage (GwFrame.malformed raw) c).2 = [] ∧
    (mockOnMessage (GwFrame.malformed raw) c).1.logs =
      c.logs ++ ["WebSocket message error"] ∧
    (clientOnMessage (RawFrame.malformed raw) st).tokenSt =
      st.tokenSt ∧
    (clientOnMessage (RawFrame.malformed raw) st).tradeSt =
      st.tradeSt ∧
    (clientOnMessage (RawFrame.malformed raw) st).strategySt =
      st.strategySt ∧
    (clientOnMessage (RawFrame.malformed raw) st).notifs = st.notifs ∧
    (clientOnMessage (RawFrame.malformed raw) st).connOpen =
      st.connOpen ∧
    (clientOnMessage (RawFrame.malformed raw) st).errorLogs =
      st.errorLogs ++ ["Failed to parse WebSocket message"] :=
  ⟨rfl, rfl, rfl, rfl, rfl, rfl, rfl, rfl, rfl⟩

/-- Payload of a `trade_created` event for trade `t1`. -/
def t1created : Trade :=
  { id := "t1", side := "BUY", tokenSymbol := "BONK",
    status := "PENDING", errorMessage := none, pnlUsd := none }

/-- Payload of a later `trade_executed` event for the same trade
`t1`. -/
def t1executed : Trade :=
  { id := "t1", side := "BUY", tokenSymbol := "BONK",
    status := "COMPLETED", errorMessage := none, pnlUsd := some 5 }

/-- C1 counterexample: dispatching `trade_created` and then
`trade_executed` for the same trade id — both routed to `addTrade` —
leaves the trades cache with two entries keyed `"t1"`, refuting the
claimed at-most-one-entry-per-key invariant. -/
theorem c1_counterexample :
    ((clientOnMessage
        (RawFrame.wellFormed (WsEvent.tradeExecuted t1executed))
        (clientOnMessage
          (RawFrame.wellFormed (WsEvent.tradeCreated t1created))
          initialClientState)).tradeSt.trades.map Trade.id =
      ["t1", "t1"]) ∧
    ¬ ((clientOnMessage
        (RawFrame.wellFormed (WsEvent.tradeExecuted t1executed))
        (clientOnMessage
          (RawFrame.wellFormed (WsEvent.tradeCreated t1created))
          initialClientState)).tradeSt.trades.map Trade.id).Nodup := by
  decide

theorem stepTrade_key (id : String) (u : TradePatch)
    (hu : u.id = none ∨ u.id = some id) (t : Trade) :
    (stepTrade id u t).id = t.id := by
  by_cases h : t.id = id
  · rcases hu with h1 | h1 <;> simp [stepTrade, h, mergeTrade, h1]
  · simp [stepTrade, h]

theorem stepPosition_key (id : String) (u : PositionPatch)
    (hu : u.id = none ∨ u.id = some id) (p : Position) :
    (stepPosition id u p).id = p.id := by
  by_cases h : p.id = id
  · rcases hu with h1 | h1 <;> simp [stepPosition, h, mergePosition, h1]
  · simp [stepPosition, h]

theorem stepToken_key (mint : String) (u : TokenPatch)
    (hu : u.mint = none ∨ u.mint = some mint) (t : TokenInfo) :
    (stepToken mint u t).mint = t.mint := by
  by_cases h : t.mint = mint
  · rcases hu with h1 | h1 <;> simp [stepToken, h, mergeToken, h1]
  · simp [stepToken, h]

/-- C1 amended: key uniqueness is preserved by `remove` always, by
`upsert_update` whenever the partial does not re-key the entry (its key
field is absent or equals the target key), and by `upsert_new` only
when the inserted entity's key is not already present in the cache —
for the trades, positions and tokens caches. -/
theorem c1_key_uniqueness_amended :
    (∀ (id : String) (u : TradePatch) (s : TradeState),
      (s.trades.map Trade.id).Nodup →
      (u.id = none ∨ u.id = some id) →
      ((updateTrade id u s).trades.map Trade.id).Nodup) ∧
    (∀ (id : String) (s : TradeState),
      (s.trades.map Trade.id).Nodup →
      ((removeTrade id s).trades.map Trade.id).Nodup) ∧
    (∀ (t : Trade) (s : TradeState),
      (s.trades.map Trade.id).Nodup →
      t.id ∉ s.trades.map Trade.id →
      ((addTrade t s).trades.map Trade.id).Nodup) ∧
    (∀ (id : String) (u : PositionPatch) (s : TradeState),
      (s.positions.map Position.id).Nodup →
      (u.id = none ∨ u.id = some id) →
      ((updatePosition id u s).positions.map Position.id).Nodup) ∧
    (∀ (id : String) (s : TradeState),
      (s.positions.map Position.id).Nodup →
      ((removePosition id s).positions.map Position.id).Nodup) ∧
    (∀ (p : Position) (s : TradeState),
      (s.positions.map Position.id).Nodup →
      p.id ∉ s.positions.map Position.id →
      ((addPosition p s).positions.map Position.id).Nodup) ∧
    (∀ (mint : String) (u : TokenPatch) (s : TokenState),
      (s.tokens.map TokenInfo.mint).Nodup →
      (u.mint = none ∨ u.mint = some mint) →
      ((updateToken mint u s).tokens.map TokenInfo.mint).Nodup) ∧
    (∀ (mint : String) (s : TokenState),
      (s.tokens.map TokenInfo.mint).Nodup →
      ((removeToken mint s).tokens.map TokenInfo.mint).Nodup) ∧
    (∀ (t : TokenInfo) (s : TokenState),
      (s.tokens.map TokenInfo.mint).Nodup →
      t.mint ∉ s.tokens.map TokenInfo.mint →
      ((addToken t s).tokens.map TokenInfo.mint).Nodup) := by
  refine ⟨?_, ?_, ?_, ?_, ?_, ?_, ?_, ?_, ?_⟩
  · intro id u s hnd hu
    show ((s.trades.map (stepTrade id u)).map Trade.id).Nodup
    rw [listMapKeys Trade.id _ (stepTrade_key id u hu)]
    exact hnd
  · intro id s hnd
    exact List.Nodup.sublist
      ((List.filter_sublist s.trades).map Trade.id) hnd
  · intro t s hnd hfresh
    show ((t :: s.trades).map Trade.id).Nodup
    rw [List.map_cons, List.nodup_cons]
    exact ⟨hfresh, hnd⟩
  · intro id u s hnd hu
    show ((s.positions.map (stepPosition id u)).map Position.id).Nodup
    rw [listMapKeys Position.id _ (stepPosition_key id u hu)]
    exact hnd
  · intro id s hnd
    exact List.Nodup.sublist
      ((List.filter_sublist s.positions).map Position.id) hnd
  · intro p s hnd hfresh
    show ((p :: s.positions).map Position.id).Nodup
    rw [List.map_cons, List.nodup_cons]
    exact ⟨hfresh, hnd⟩
  · intro mint u s hnd hu
    show ((s.tokens.map (stepToken mint u)).map TokenInfo.mint).Nodup
    rw [listMapKeys TokenInfo.mint _ (stepToken_key mint u hu)]
    exact hnd
  · intro mint s hnd
    exact List.Nodup.sublist
      ((List.filter_sublist s.tokens).map TokenInfo.mint) hnd
  · intro t s hnd hfresh
    show ((t :: s.tokens).map TokenInfo.mint).Nodup
    rw [List.map_cons, List.nodup_cons]
    exact ⟨hfresh, hnd⟩

/-- A one-trade store with unique keys. -/
def oneTradeState : TradeState := addTrade t1created initialTradeState

/-- A one-position store with unique keys. -/
def onePosState : TradeState := addPosition posSel initialTradeState

/-- A one-token store with unique keys. -/
def oneTokState : TokenState := addToken tokSel initialTokenState

/-- C1 amended witness: the nine preservation statements instantiated
on concrete one-entry stores. -/
theorem c1_key_uniqueness_amended_witness :
    ((updateTrade "t1" tpatchW oneTradeState).trades.map
      Trade.id).Nodup ∧
    ((removeTrade "t1" oneTradeState).trades.map Trade.id).Nodup ∧
    ((addTrade tradeSel oneTradeState).trades.map Trade.id).Nodup ∧
    ((updatePosition "p9" ppatchW onePosState).positions.map
      Position.id).Nodup ∧
    ((removePosition "p9" onePosState).positions.map
      Position.id).Nodup ∧
    ((addPosition ⟨"p7", "SAMO", 2, 3⟩ onePosState).positions.map
      Position.id).Nodup ∧
    ((updateToken "m9" kpatchW oneTokState).tokens.map
      TokenInfo.mint).Nodup ∧
    ((removeToken "m9" oneTokState).tokens.map TokenInfo.mint).Nodup ∧
    ((addToken ⟨"m7", "WIF", "dogwifhat", 4, 5, false⟩
      oneTokState).tokens.map TokenInfo.mint).Nodup :=
  ⟨c1_key_uniqueness_amended.1 "t1" tpatchW oneTradeState (by decide)
      (Or.inl rfl),
   c1_key_uniqueness_amended.2.1 "t1" oneTradeState (by decide),
   c1_key_uniqueness_amended.2.2.1 tradeSel oneTradeState (by decide)
      (by decide),
   c1_key_uniqueness_amended.2.2.2.1 "p9" ppatchW onePosState
      (by decide) (Or.inl rfl),
   c1_key_uniqueness_amended.2.2.2.2.1 "p9" onePosState (by decide),
   c1_key_uniqueness_amended.2.2.2.2.2.1 ⟨"p7", "SAMO", 2, 3⟩
      onePosState (by decide) (by decide),
   c1_key_uniqueness_amended.2.2.2.2.2.2.1 "m9" kpatchW oneTokState
      (by decide) (Or.inl rfl),
   c1_key_uniqueness_amended.2.2.2.2.2.2.2.1 "m9" oneTokState
      (by decide),
   c1_key_uniqueness_amended.2.2.2.2.2.2.2.2
      ⟨"m7", "WIF", "dogwifhat", 4, 5, false⟩ oneTokState (by decide)
      (by decide)⟩

/-- The hook options in force in the app: a token is present after
login, `autoReconnect` and `reconnectInterval` keep their defaults. -/
def defaultAgentConfig : AgentConfig :=
  { token := some "mock_jwt_token_12345", autoReconnect := true,
    reconnectInterval := 5000 }

/-- A connected agent: live socket, no pending reconnect timer. -/
def connectedAgentState : AgentState :=
  { ws := some { readyState := ReadyState.opened }
    isConnected := true
    reconnectScheduled := false
    pendingCloseEvents := 0 }

/-- C2 (code bug evaluation): `disconnect()` itself clears the timer
and leaves one close event of its own transport pending; when that
close event is delivered to the still-attached `onclose` handler, the
handler sees `autoReconnect && token` and schedules a reconnect — so a
reconnect attempt is made after `disconnect()`, contradicting the
claimed finality. -/
theorem c2_disconnect_schedules_reconnect :
    (disconnect connectedAgentState).reconnectScheduled = false ∧
    (disconnect connectedAgentState).pendingCloseEvents = 1 ∧
    (oncloseHandler defaultAgentConfig
      (disconnect connectedAgentState)).reconnectScheduled = true := by
  decide

/-- A fresh gateway connection. -/
def gwConn0 : MockConn := { isOpen := true, logs := [] }

/-- C3 counterexample: a recognized subscribe control message is
echoed back by the gateway — a reply is produced — refuting the claim
that recognized subscribe/unsubscribe messages get no reply and only
unrecognized messages are echoed. -/
theorem c3_counterexample :
    (mockOnMessage
      (GwFrame.parsed (ClientMsg.subscribeCtl [Topic.trades]))
      gwConn0).2 =
      [GwReply.echo (ClientMsg.subscribeCtl [Topic.trades])] ∧
    ¬ ((mockOnMessage
      (GwFrame.parsed (ClientMsg.subscribeCtl [Topic.trades]))
      gwConn0).2 = []) := by
  decide

/-- C3 amended: the gateway keeps no per-connection subscription set
and treats every successfully parsed inbound message alike — it logs
it and echoes it back wrapped in an echo envelope, subscribe and
unsubscribe control messages included; only an unparseable frame
produces no reply; the connection stays open either way. -/
theorem c3_gateway_inbound_amended (m : ClientMsg) (raw : String)
    (c : MockConn) :
    mockOnMessage (GwFrame.parsed m) c =
      ({ c with logs := c.logs ++ ["Received"] }, [GwReply.echo m]) ∧
    mockOnMessage (GwFrame.malformed raw) c =
      ({ c with logs := c.logs ++ ["WebSocket message error"] },
        []) ∧
    (mockOnMessage (GwFrame.parsed m) c).1.isOpen = c.isOpen :=
  ⟨rfl, rfl, rfl⟩

end SolSniper
